import Mathlib

/-
Verification of the reddit-music-player sources against their specification.

The definitions below are a shallow embedding of the TypeScript sources:
  * `src/components/controls.tsx`      — transport controls (`handleSeek`,
    `displayPercentage`),
  * `src/unnamed/part_000`             — the SoundCloud adapter
    (`SoundCloudPlayer`, PLAY_PROGRESS / FINISHED handlers),
  * `src/unnamed/part_001`             — the fetch pipeline (`fetchMusic`,
    `fetchSearch`, `fetchMusicForSubreddits`) and `useInitializeApp`,
  * `src/app/api/comments/route.ts`    — the listing proxy (retry loop,
    error classification).
JavaScript numbers are modelled by `JSNum` (a rational plus the NaN and
infinity flags); machine-level float rounding is irrelevant to the claims
proved here, which only involve comparisons, clamping and exact ratios.
-/

namespace RMP

/-- JavaScript number: either a finite rational or one of NaN, +Infinity,
-Infinity. -/
inductive JSNum where
  | nan
  | posInf
  | negInf
  | num (q : ℚ)
deriving DecidableEq, Repr

/-- JS `x > 0` (false on NaN, true on +Infinity). -/
def jsGtZero : JSNum → Bool
  | JSNum.nan => false
  | JSNum.posInf => true
  | JSNum.negInf => false
  | JSNum.num q => decide (0 < q)

/-- JS `x >= 0` (false on NaN, true on +Infinity). -/
def jsGeZero : JSNum → Bool
  | JSNum.nan => false
  | JSNum.posInf => true
  | JSNum.negInf => false
  | JSNum.num q => decide (0 ≤ q)

/-- JS `isNaN(x)`. -/
def jsIsNaN : JSNum → Bool
  | JSNum.nan => true
  | _ => false

/-- JS `isFinite(x)`. -/
def jsIsFinite : JSNum → Bool
  | JSNum.num _ => true
  | _ => false

/-- JS division by the positive constant 1000 (used for the ms → s
conversions in the sources). -/
def jsDiv1000 : JSNum → JSNum
  | JSNum.nan => JSNum.nan
  | JSNum.posInf => JSNum.posInf
  | JSNum.negInf => JSNum.negInf
  | JSNum.num q => JSNum.num (q / 1000)

/-- The rational value of a finite `JSNum` (0 for the non-finite cases; the
sources only read the value under `isFinite` guards). -/
def JSNum.toRat : JSNum → ℚ
  | JSNum.num q => q
  | _ => 0

/-- Embeds `controls.tsx` lines 151–158: `displayPercentage` starts at 0 and
is only recomputed when `currentSong && duration > 0 && !isNaN(duration) &&
!isNaN(displayTime) && isFinite(duration) && isFinite(displayTime)`, in which
case it is `(displayTime / duration) * 100` clamped to `[0, 100]`. -/
def displayPercentage (hasSong : Bool) (duration displayTime : JSNum) : ℚ :=
  if hasSong && jsGtZero duration && !jsIsNaN duration && !jsIsNaN displayTime
      && jsIsFinite duration && jsIsFinite displayTime then
    let calculated := displayTime.toRat / duration.toRat * 100
    max 0 (min 100 calculated)
  else 0

/-- A song as used by the player and the queue (`id` is the stable dedup
key). -/
structure Song where
  id : String
  title : String
  url : String
deriving DecidableEq, Repr

/-- Events the SoundCloud widget delivers to the handlers bound in
`initializePlayer` (`src/unnamed/part_000`): a PLAY_PROGRESS event carrying
`e.currentPosition` in milliseconds, or the FINISHED event. -/
inductive SCEvent where
  | playProgress (positionMs : JSNum)
  | finished
deriving DecidableEq, Repr

/-- Observable effects a handler invocation produces: callbacks into the
coordinator (`onTimeUpdate`, `onDurationChange`, `onStateChange`) and the
direct `store.forward()` call of the FINISHED handler. -/
inductive SCEffect where
  | timeUpdate (seconds : ℚ)
  | durationChange (seconds : ℚ)
  | stateChange (isPlaying : Bool)
  | queueForward
deriving DecidableEq, Repr

/-- Embeds the event handlers bound in `initializePlayer`
(`src/unnamed/part_000`, lines 98–123).

* PLAY_PROGRESS: reads `window.__soundcloudUrl` (`globalUrl`) and proceeds
  only if it equals the closure's `song.url` (`boundUrl`); emits a time
  update for `e.currentPosition / 1000` when that value is `>= 0` and finite;
  then queries `getDuration` (its reply is `widgetDurationMs`) and emits a
  duration update under the same url re-check plus `duration > 0 &&
  isFinite(duration)`.
* FINISHED: unconditionally calls `onStateChange(false)` and then
  `store.forward()` whenever `store.currentIndex < store.songs.length - 1`
  — with no stale-binding check. -/
def scHandleEvent (boundUrl : String) (globalUrl : Option String)
    (widgetDurationMs : JSNum) (currentIndex : ℤ) (queueLen : ℕ) :
    SCEvent → List SCEffect
  | SCEvent.playProgress posMs =>
      if globalUrl = some boundUrl then
        let time := jsDiv1000 posMs
        (if jsGeZero time && jsIsFinite time then
          [SCEffect.timeUpdate time.toRat] else []) ++
        (if globalUrl = some boundUrl && jsGtZero widgetDurationMs
            && jsIsFinite widgetDurationMs then
          [SCEffect.durationChange (jsDiv1000 widgetDurationMs).toRat] else [])
      else []
  | SCEvent.finished =>
      SCEffect.stateChange false ::
      (if currentIndex < (queueLen : ℤ) - 1 then [SCEffect.queueForward] else [])

/-- The coordinator-visible playback state the handler effects act on. -/
structure CoordState where
  isPlaying : Bool
  currentTime : ℚ
  duration : ℚ
  currentIndex : ℤ
deriving DecidableEq, Repr

/-- Modelled from the spec: the store operations the SoundCloud handlers call
(`usePlaylistStore` in `@/lib/store`, which is not among the provided source
files). `onTimeUpdate` / `onDurationChange` / `onStateChange` merge the
reported field into PlaybackState (§4.1 `reportState`); `forward` advances
`currentIndex` by one (§4.3 `advance()`). -/
def applyEffect (st : CoordState) : SCEffect → CoordState
  | SCEffect.timeUpdate t => { st with currentTime := t }
  | SCEffect.durationChange d => { st with duration := d }
  | SCEffect.stateChange b => { st with isPlaying := b }
  | SCEffect.queueForward => { st with currentIndex := st.currentIndex + 1 }

/-- Applies a handler's emitted effects in order. -/
def applyEffects (st : CoordState) (l : List SCEffect) : CoordState :=
  l.foldl applyEffect st

/-- A playing state used to exhibit the unguarded FINISHED handler. -/
def cexState : CoordState :=
  { isPlaying := true, currentTime := 10, duration := 100, currentIndex := 0 }

/-- A state in which an explicit user pause is in effect. -/
def pausedState : CoordState :=
  { isPlaying := false, currentTime := 95, duration := 100, currentIndex := 0 }

/-- Outcome of one backend branch of `handleSeek` (`controls.tsx` lines
47–130): the position (in seconds) the branch actually requests of its
backend, and whether it re-issues `play()`. -/
structure SeekOutcome where
  targetSeconds : ℚ
  playReissued : Bool
deriving DecidableEq, Repr

/-- YouTube branch: `player.seekTo(newTime, true)`; replays when
`wasPlaying && player.getPlayerState() !== 1`. -/
def youtubeSeek (newTime : ℚ) (wasPlaying : Bool) (playerStateCode : ℤ) :
    SeekOutcome :=
  { targetSeconds := newTime,
    playReissued := wasPlaying && !(playerStateCode == 1) }

/-- Vimeo branch: `player.setCurrentTime(newTime)`, then when `wasPlaying`
queries `getPaused()` and replays if paused. -/
def vimeoSeek (newTime : ℚ) (wasPlaying backendPaused : Bool) : SeekOutcome :=
  { targetSeconds := newTime, playReissued := wasPlaying && backendPaused }

/-- MP3 branch: `audio.currentTime = newTime`; replays when
`wasPlaying && audio.paused`. -/
def mp3Seek (newTime : ℚ) (wasPlaying backendPaused : Bool) : SeekOutcome :=
  { targetSeconds := newTime, playReissued := wasPlaying && backendPaused }

/-- SoundCloud branch, the position passed to `widget.seekTo`:
`const seekPosition = (newTime / duration) * 1000` where `duration` is the
widget's `getDuration` reply in milliseconds (`controls.tsx` line 114). -/
def soundcloudSeekPositionMs (newTime durationMs : ℚ) : ℚ :=
  newTime / durationMs * 1000

/-- The playback position in seconds that the SoundCloud branch actually
lands on: `widget.seekTo` interprets its argument as milliseconds. -/
def soundcloudSeekTargetSeconds (newTime durationMs : ℚ) : ℚ :=
  soundcloudSeekPositionMs newTime durationMs / 1000

/-- SoundCloud branch of `handleSeek`: seeks to `soundcloudSeekPositionMs`
and replays unconditionally when `wasPlaying`. -/
def soundcloudSeek (newTime durationMs : ℚ) (wasPlaying : Bool) :
    SeekOutcome :=
  { targetSeconds := soundcloudSeekTargetSeconds newTime durationMs,
    playReissued := wasPlaying }

/-- A user-facing message pushed by `addMessage`; the retry button's callback
closes over the original `subreddits` and `after` arguments. -/
structure AppMessage where
  msgType : String
  text : String
  retrySubreddits : List String
  retryAfter : Option String
deriving DecidableEq, Repr

/-- The playlist-store slice touched by the fetch pipeline. -/
structure Store where
  songs : List Song
  after : Option String
  loading : Bool
  messages : List AppMessage
deriving DecidableEq, Repr

/-- Modelled from the spec: `addSongs` of `@/lib/store` (the Queue Manager's
`append(songs)`, not among the provided source files) "deduplicates against
existing `id`s before appending". -/
def addSongs (existing batch : List Song) : List Song :=
  existing ++ batch.filter (fun s => !((existing.map Song.id).contains s.id))

/-- The error message added by the catch branch of
`fetchMusicForSubreddits` (`src/unnamed/part_001` lines 208–221); its retry
callback is `fetchMusicForSubreddits(subreddits, after)`. -/
def errMessage (subreddits : List String) (after : Option String) :
    AppMessage :=
  { msgType := "error", text := "Failed to load music from Reddit.",
    retrySubreddits := subreddits, retryAfter := after }

/-- JS `x || null` applied to the upstream `after` cursor: the empty string
is falsy and becomes null. -/
def orNull : Option String → Option String
  | some "" => Option.none
  | x => x

/-- What the network returns to one fetch call, as seen by the pipeline.
Item parsing (`filterPlayableSongs` / `parseSong`, in
`@/lib/utils/song-parser`, not among the provided sources) is abstracted:
`httpOk` directly carries the batch of successfully parsed songs. -/
inductive NetOutcome where
  | httpOk (parsedSongs : List Song) (afterTok : Option String)
  | httpOkBadStructure
  | httpOkApiError (t m : String)
  | httpErr (status : ℕ)
  | netFail
deriving DecidableEq, Repr

/-- The suspension of the fetch run during which the superseding fetch's
`abortController.abort()` fires (if any): while awaiting `fetch`, between
the fetch resolving and the explicit `signal.aborted` check, or while
awaiting the response body (`response.text()` / `response.json()`). -/
inductive AbortAt where
  | duringFetch
  | afterFetch
  | duringBody
deriving DecidableEq, Repr

/-- How one fetch run resolves for its caller. -/
inductive FetchResult where
  | ok (songs : List Song)
  | emptyRes
  | err
deriving DecidableEq, Repr

/-- Embeds `fetchMusicForSubreddits` (`src/unnamed/part_001` lines 121–231).
`abortAt` records at which of this run's suspension points (if any) a
superseding fetch aborted this run's controller; an abort signalled while an
await is pending rejects that await with `AbortError`, which the catch
branch turns into `return []` with no store mutation, and the `finally`
skips `setLoading(false)` for aborted runs. On a non-aborted run: a rejected
fetch or a non-ok / API-error response adds the retry message and rethrows;
an unexpected structure returns `[]`; success runs `setSongs` (first page)
or `addSongs` (paginated) and `setAfter(data.data.after || null)`. -/
def runFetchSubreddits (subs : List String) (after : Option String)
    (abortAt : Option AbortAt) (outcome : NetOutcome) (st : Store) :
    Store × FetchResult :=
  let st1 : Store := { st with loading := true }
  match outcome, abortAt with
  | _, some AbortAt.duringFetch => (st1, FetchResult.emptyRes)
  | NetOutcome.netFail, some _ => (st1, FetchResult.emptyRes)
  | NetOutcome.netFail, Option.none =>
      ({ st1 with
          loading := false
          messages := st1.messages ++ [errMessage subs after] },
        FetchResult.err)
  | _, some AbortAt.afterFetch => (st1, FetchResult.emptyRes)
  | _, some AbortAt.duringBody => (st1, FetchResult.emptyRes)
  | NetOutcome.httpErr _, Option.none =>
      ({ st1 with
          loading := false
          messages := st1.messages ++ [errMessage subs after] },
        FetchResult.err)
  | NetOutcome.httpOkApiError _ _, Option.none =>
      ({ st1 with
          loading := false
          messages := st1.messages ++ [errMessage subs after] },
        FetchResult.err)
  | NetOutcome.httpOkBadStructure, Option.none =>
      ({ st1 with loading := false }, FetchResult.emptyRes)
  | NetOutcome.httpOk parsedSongs afterTok, Option.none =>
      let newSongs :=
        if after.isSome then addSongs st1.songs parsedSongs else parsedSongs
      ({ st1 with
          songs := newSongs
          after := orNull afterTok
          loading := false },
        FetchResult.ok parsedSongs)

/-- Embeds `fetchSearch` (`src/unnamed/part_001` lines 34–119): identical
control flow to `runFetchSubreddits` except that its catch branch rethrows
without adding a user message. -/
def runFetchSearch (query : String) (after : Option String)
    (abortAt : Option AbortAt) (outcome : NetOutcome) (st : Store) :
    Store × FetchResult :=
  let st1 : Store := { st with loading := true }
  match outcome, abortAt with
  | _, some AbortAt.duringFetch => (st1, FetchResult.emptyRes)
  | NetOutcome.netFail, some _ => (st1, FetchResult.emptyRes)
  | NetOutcome.netFail, Option.none =>
      ({ st1 with loading := false }, FetchResult.err)
  | _, some AbortAt.afterFetch => (st1, FetchResult.emptyRes)
  | _, some AbortAt.duringBody => (st1, FetchResult.emptyRes)
  | NetOutcome.httpErr _, Option.none =>
      ({ st1 with loading := false }, FetchResult.err)
  | NetOutcome.httpOkApiError _ _, Option.none =>
      ({ st1 with loading := false }, FetchResult.err)
  | NetOutcome.httpOkBadStructure, Option.none =>
      ({ st1 with loading := false }, FetchResult.emptyRes)
  | NetOutcome.httpOk parsedSongs afterTok, Option.none =>
      let newSongs :=
        if after.isSome then addSongs st1.songs parsedSongs else parsedSongs
      ({ st1 with
          songs := newSongs
          after := orNull afterTok
          loading := false },
        FetchResult.ok parsedSongs)

/-- An outcome is a request-level error of the pipeline (rejected fetch,
non-ok HTTP status, or an `error` field in the payload) — the cases in which
`fetchMusicForSubreddits` reaches its catch branch without an abort. -/
def requestLevelErr : NetOutcome → Bool
  | NetOutcome.netFail => true
  | NetOutcome.httpErr _ => true
  | NetOutcome.httpOkApiError _ _ => true
  | _ => false

/-- Errors a `fetch` call inside the listing proxy can reject with
(`src/app/api/comments/route.ts`): the 30-second timeout's abort, a network
error carrying code ENOTFOUND / ECONNREFUSED, or anything else. -/
inductive FetchErr where
  | abortTimeout
  | netUnreachable
  | other (nm : String)
deriving DecidableEq, Repr

/-- How the response body behaves when the proxy consumes it:
`response.json()` yields a non-null object, yields something that is not an
object, or throws a JSON parse error. -/
inductive RespBody where
  | jsonObj
  | jsonNonObj
  | notJson
deriving DecidableEq, Repr

/-- What one upstream attempt of the proxy's retry loop produces. -/
inductive AttemptRes where
  | resp (status : ℕ) (body : RespBody)
  | raise (e : FetchErr)
deriving Repr

/-- `Response.ok`: status in the range 200–299. -/
def isOkStatus (s : ℕ) : Bool := decide (200 ≤ s) && decide (s < 300)

/-- Result of the proxy's retry loop: either the loop finished with the last
received response (if any) and the last caught error, or an error was thrown
out of the loop (a rejection on the final attempt). `delays` lists the
backoff waits (in ms) performed before retries, in order. -/
inductive LoopOut where
  | finished (resp : Option (ℕ × RespBody)) (lastErr : Option FetchErr)
      (delays : List ℕ)
  | thrown (e : FetchErr) (delays : List ℕ)
deriving Repr

/-- The backoff delays a loop run performed. -/
def LoopOut.delays : LoopOut → List ℕ
  | LoopOut.finished _ _ d => d
  | LoopOut.thrown _ d => d

/-- Embeds the body of `for (let attempt = 0; attempt < 3; attempt++)`
(`src/app/api/comments/route.ts` lines 122–168), recursing on the remaining
iteration count: each iteration first waits `attempt * 1000` ms when
`attempt > 0`, then fetches; a rejection is remembered in `lastError` and
rethrown when `attempt === 2`; an ok response breaks out; a 403 with
`attempt < 2` retries; any other response breaks out. -/
def retryAux (upstream : ℕ → AttemptRes) :
    (remaining attempt : ℕ) → Option (ℕ × RespBody) → Option FetchErr →
      List ℕ → LoopOut
  | 0, _, resp, lastErr, delays => LoopOut.finished resp lastErr delays
  | remaining + 1, attempt, resp, lastErr, delays =>
      let delays' := if attempt > 0 then delays ++ [attempt * 1000] else delays
      match upstream attempt with
      | AttemptRes.raise e =>
          if attempt = 2 then LoopOut.thrown e delays'
          else retryAux upstream remaining (attempt + 1) resp (some e) delays'
      | AttemptRes.resp status body =>
          if isOkStatus status then
            LoopOut.finished (some (status, body)) lastErr delays'
          else if status = 403 ∧ attempt < 2 then
            retryAux upstream remaining (attempt + 1) (some (status, body))
              lastErr delays'
          else LoopOut.finished (some (status, body)) lastErr delays'

/-- The proxy's retry loop: three attempts starting from attempt 0. -/
def retryLoop (upstream : ℕ → AttemptRes) : LoopOut :=
  retryAux upstream 3 0 Option.none Option.none []

/-- Classification of failure payloads in the proxy's JSON error bodies. -/
inductive ErrKind where
  | upstreamErr
  | invalidResp
  | badJson
  | timeout
  | network
  | internal
deriving DecidableEq, Repr

/-- The HTTP response the proxy's caller receives: its status and, for
failures, the classification of the JSON error body (`Option.none` means the
upstream data was passed through). -/
structure ProxyResp where
  status : ℕ
  errKind : Option ErrKind
deriving DecidableEq, Repr

/-- Embeds the proxy's catch branch (`src/app/api/comments/route.ts` lines
218–263): AbortError → 504 timeout, ENOTFOUND/ECONNREFUSED → 503 network,
any other error → 500 internal. (The SyntaxError arm is reached through the
body handling below, which classifies it before rethrowing would occur.) -/
def catchClassify : FetchErr → ProxyResp
  | FetchErr.abortTimeout =>
      { status := 504, errKind := some ErrKind.timeout }
  | FetchErr.netUnreachable =>
      { status := 503, errKind := some ErrKind.network }
  | FetchErr.other _ =>
      { status := 500, errKind := some ErrKind.internal }

/-- Embeds the proxy's handling after the retry loop
(`src/app/api/comments/route.ts` lines 170–217 and the catch branch): a
thrown error is classified by the catch; no response at all rethrows the
last error; a non-ok response is passed through with its own status and an
error body; an ok response whose body fails to parse as JSON yields 500
(SyntaxError arm of the catch), a non-object payload yields 500
invalid-response, and a valid object is returned as JSON with status 200. -/
def respondOf : LoopOut → ProxyResp
  | LoopOut.thrown e _ => catchClassify e
  | LoopOut.finished Option.none lastErr _ =>
      catchClassify
        (lastErr.getD (FetchErr.other "Failed to fetch from Reddit API"))
  | LoopOut.finished (some (status, body)) _ _ =>
      if isOkStatus status then
        match body with
        | RespBody.jsonObj => { status := 200, errKind := Option.none }
        | RespBody.jsonNonObj =>
            { status := 500, errKind := some ErrKind.invalidResp }
        | RespBody.notJson =>
            { status := 500, errKind := some ErrKind.badJson }
      else { status := status, errKind := some ErrKind.upstreamErr }

/-- The proxy's GET on a cache miss, as a function of the upstream's
per-attempt behaviour. -/
def proxyGet (upstream : ℕ → AttemptRes) : ProxyResp :=
  respondOf (retryLoop upstream)

/-- Upstream that answers 403 to the first three requests and 200 with a
valid JSON object afterwards. -/
def upstreamThree403sThen200 (n : ℕ) : AttemptRes :=
  if n < 3 then AttemptRes.resp 403 RespBody.jsonObj
  else AttemptRes.resp 200 RespBody.jsonObj

/-- Upstream that answers 403 to the first two requests and 200 with a valid
JSON object afterwards. -/
def upstreamTwo403sThen200 (n : ℕ) : AttemptRes :=
  if n < 2 then AttemptRes.resp 403 RespBody.jsonObj
  else AttemptRes.resp 200 RespBody.jsonObj

/-- Where `fetchMusic` (`src/unnamed/part_001` lines 20–32) dispatches. -/
inductive FetchTarget where
  | search (q : String)
  | subs (subreddits : List String)
deriving DecidableEq, Repr

/-- Embeds `fetchMusic`: a truthy (non-empty) `searchQuery` dispatches to
`fetchSearch`; otherwise an empty `selectedSubreddits` falls back to
`["listentothis"]`. -/
def fetchMusicTarget (searchQuery : String)
    (selectedSubreddits : List String) : FetchTarget :=
  if searchQuery ≠ "" then FetchTarget.search searchQuery
  else if selectedSubreddits.length = 0 then
    FetchTarget.subs ["listentothis"]
  else FetchTarget.subs selectedSubreddits

/-- Embeds the subreddit-list parsing of `useInitializeApp`
(`src/unnamed/part_001` lines 275–303): split on `+`, trim, lowercase, drop
empties. -/
def parseSubList (s : String) : List String :=
  ((s.splitOn "+").map (fun x => x.trim.toLower)).filter (fun x => x ≠ "")

/-- Parses an optional raw capture (path capture after `/r/`, or the `?r=`
query parameter) into a subreddit list; absence yields the empty list. -/
def optSubList : Option String → List String
  | some s => parseSubList s
  | Option.none => []

/-- Embeds the source-selection cascade of `useInitializeApp`
(`src/unnamed/part_001` lines 271–316): path subreddits if non-empty, else
query subreddits if non-empty, else saved subreddits if non-empty, else the
default `["listentothis"]`. -/
def initSubreddits (pathCapture rParam : Option String)
    (savedSubs : List String) : List String :=
  let pathSubs := optSubList pathCapture
  if pathSubs.length > 0 then pathSubs
  else
    let querySubs := optSubList rParam
    if querySubs.length > 0 then querySubs
    else if savedSubs.length > 0 then savedSubs
    else ["listentothis"]

/-- C6: for every value of `currentTime` (including NaN and non-finite
values), whenever `duration` is 0, NaN or non-finite, or no song is loaded,
the computed progress percentage is exactly 0; and for all inputs the
percentage lies in [0, 100]. -/
theorem C6_display_percentage (hasSong : Bool) (duration displayTime : JSNum) :
    ((duration = JSNum.num 0 ∨ duration = JSNum.nan ∨
        jsIsFinite duration = false ∨ hasSong = false) →
      displayPercentage hasSong duration displayTime = 0) ∧
    0 ≤ displayPercentage hasSong duration displayTime ∧
    displayPercentage hasSong duration displayTime ≤ 100 := by
  refine ⟨?_, ?_, ?_⟩
  · rintro (rfl | rfl | h | rfl) <;>
      simp [displayPercentage, jsGtZero, jsIsNaN, jsIsFinite] <;>
      cases duration <;> simp_all [jsIsFinite]
  · unfold displayPercentage
    split
    · exact le_max_left 0 _
    · exact le_refl 0
  · unfold displayPercentage
    split
    · exact max_le (by norm_num) (min_le_left 100 _)
    · norm_num

/-- Witness for `C6_display_percentage` at `duration = 0` with a positive
`currentTime`. -/
theorem C6_display_percentage_witness :
    displayPercentage true (JSNum.num 0) (JSNum.num 50) = 0 :=
  (C6_display_percentage true (JSNum.num 0) (JSNum.num 50)).1 (Or.inl rfl)

/-- C1 counterexample: the FINISHED report of a SoundCloud adapter bound to
"songA" arrives while the current song is "songB"
(`window.__soundcloudUrl = "songB"`); the handler still pauses the playback
state and advances `currentIndex`, so the claim fails for end-of-track
reports. -/
theorem C1_stale_finished_mutates :
    applyEffects cexState
      (scHandleEvent "songA" (some "songB") (JSNum.num 200000) 0 2
        SCEvent.finished) ≠ cexState ∧
    (applyEffects cexState
      (scHandleEvent "songA" (some "songB") (JSNum.num 200000) 0 2
        SCEvent.finished)).currentIndex ≠ cexState.currentIndex := by
  constructor <;> decide

/-- C1 as amended: a PLAY_PROGRESS report (the time-update and
duration-update callbacks) from an adapter whose bound song url is no longer
the globally current one is discarded entirely and leaves the coordinator
state unchanged. -/
theorem C1_stale_play_progress_ignored (boundUrl : String)
    (globalUrl : Option String) (durMs posMs : JSNum) (ci : ℤ) (ql : ℕ)
    (st : CoordState) (h : globalUrl ≠ some boundUrl) :
    scHandleEvent boundUrl globalUrl durMs ci ql
      (SCEvent.playProgress posMs) = [] ∧
    applyEffects st
      (scHandleEvent boundUrl globalUrl durMs ci ql
        (SCEvent.playProgress posMs)) = st := by
  have he : scHandleEvent boundUrl globalUrl durMs ci ql
      (SCEvent.playProgress posMs) = [] := by
    simp [scHandleEvent, h]
  exact ⟨he, by rw [he]; rfl⟩

/-- Witness for `C1_stale_play_progress_ignored`: a progress report bound to
"songA" arriving while the current url is "songB". -/
theorem C1_stale_play_progress_ignored_witness :
    scHandleEvent "songA" (some "songB") (JSNum.num 200000) 0 2
      (SCEvent.playProgress (JSNum.num 5000)) = [] :=
  (C1_stale_play_progress_ignored "songA" (some "songB") (JSNum.num 200000)
    (JSNum.num 5000) 0 2 cexState (by decide)).1

/-- C7 counterexample: with an explicit user pause already in effect
(`isPlaying = false`), the FINISHED handler still emits
`onStateChange(false)` — the spurious pause report the claim rules out. -/
theorem C7_finished_emits_while_paused :
    pausedState.isPlaying = false ∧
    SCEffect.stateChange false ∈
      scHandleEvent "songA" (some "songA") (JSNum.num 200000)
        pausedState.currentIndex 2 SCEvent.finished := by
  constructor <;> decide

/-- C7 as amended: each FINISHED event makes the handler emit
`onStateChange(false)` exactly once — unconditionally, including when
playback was already paused — and advance the queue exactly when the current
song is not the last one. -/
theorem C7_finished_exactly_once (boundUrl : String)
    (globalUrl : Option String) (durMs : JSNum) (ci : ℤ) (ql : ℕ) :
    (scHandleEvent boundUrl globalUrl durMs ci ql SCEvent.finished).count
      (SCEffect.stateChange false) = 1 ∧
    (SCEffect.queueForward ∈
        scHandleEvent boundUrl globalUrl durMs ci ql SCEvent.finished ↔
      ci < (ql : ℤ) - 1) := by
  unfold scHandleEvent
  by_cases h : ci < (ql : ℤ) - 1 <;> simp [h, List.count_cons]

/-- C2: evaluation of the four seek branches at the failing input — a seek
to 60 s on a 180 s SoundCloud track (widget duration 180000 ms). YouTube,
Vimeo and MP3 request exactly the 60 s target, but the SoundCloud branch
passes `(60 / 180000) * 1000 ≈ 0.33` ms to `widget.seekTo`, i.e. lands at
1/3000 s — more than 59 s away from the target, far outside the 0.5 s
tolerance (the repo's own adapter converts with `seconds * 1000` instead). -/
theorem C2_soundcloud_seek_bug :
    soundcloudSeekTargetSeconds 60 180000 = 1 / 3000 ∧
    60 - soundcloudSeekTargetSeconds 60 180000 > 1 / 2 ∧
    (soundcloudSeek 60 180000 true).playReissued = true ∧
    (youtubeSeek 60 true 2).targetSeconds = 60 ∧
    (vimeoSeek 60 true true).targetSeconds = 60 ∧
    (mp3Seek 60 true true).targetSeconds = 60 := by
  refine ⟨?_, ?_, rfl, rfl, rfl, rfl⟩ <;>
    norm_num [soundcloudSeekTargetSeconds, soundcloudSeekPositionMs]

/-- C3: if a superseding fetch B aborts run A's controller at any of A's
suspension points (i.e. A's response arrives after B started), then A leaves
the queue, the pagination cursor and the messages unchanged and resolves
silently with an empty result — for both `fetchMusicForSubreddits` and
`fetchSearch`. -/
theorem C3_cancelled_fetch_discarded (subs : List String) (query : String)
    (after : Option String) (abortAt : Option AbortAt) (outcome : NetOutcome)
    (st : Store) (h : abortAt ≠ Option.none) :
    ((runFetchSubreddits subs after abortAt outcome st).1.songs = st.songs ∧
     (runFetchSubreddits subs after abortAt outcome st).1.after = st.after ∧
     (runFetchSubreddits subs after abortAt outcome st).1.messages =
       st.messages ∧
     (runFetchSubreddits subs after abortAt outcome st).2 =
       FetchResult.emptyRes) ∧
    ((runFetchSearch query after abortAt outcome st).1.songs = st.songs ∧
     (runFetchSearch query after abortAt outcome st).1.after = st.after ∧
     (runFetchSearch query after abortAt outcome st).1.messages =
       st.messages ∧
     (runFetchSearch query after abortAt outcome st).2 =
       FetchResult.emptyRes) := by
  cases abortAt with
  | none => exact absurd rfl h
  | some a =>
      cases a <;> cases outcome <;>
        simp [runFetchSubreddits, runFetchSearch]

/-- Witness for `C3_cancelled_fetch_discarded`: a run aborted while awaiting
the response body does not apply its (successful) response to the queue. -/
theorem C3_cancelled_fetch_discarded_witness :
    (runFetchSubreddits ["listentothis"] Option.none
      (some AbortAt.duringBody)
      (NetOutcome.httpOk [{ id := "x", title := "t", url := "u" }] (some "c1"))
      { songs := [], after := Option.none, loading := false,
        messages := [] }).1.songs = [] :=
  (C3_cancelled_fetch_discarded ["listentothis"] "q" Option.none
    (some AbortAt.duringBody)
    (NetOutcome.httpOk [{ id := "x", title := "t", url := "u" }] (some "c1"))
    { songs := [], after := Option.none, loading := false, messages := [] }
    (by decide)).1.1

/-- C8: a non-aborted request-level error (rejected fetch, non-ok status, or
an API error payload) leaves the already-loaded songs and the pagination
cursor unchanged, surfaces the user-actionable error message whose retry
action carries the original `subreddits` and `after` arguments, and makes
only this page's load fail. This covers the first page (`after = none`) and
paginated pages (`after = some cursor`) alike. -/
theorem C8_request_error_policy (subs : List String) (aft : Option String)
    (outcome : NetOutcome) (st : Store)
    (h : requestLevelErr outcome = true) :
    (runFetchSubreddits subs aft Option.none outcome st).1.songs =
      st.songs ∧
    (runFetchSubreddits subs aft Option.none outcome st).1.after =
      st.after ∧
    (runFetchSubreddits subs aft Option.none outcome st).1.messages =
      st.messages ++ [errMessage subs aft] ∧
    (runFetchSubreddits subs aft Option.none outcome st).2 =
      FetchResult.err := by
  cases outcome <;> simp_all [requestLevelErr, runFetchSubreddits]

/-- Witness for `C8_request_error_policy`: an HTTP 500 on a paginated page
keeps the loaded song and records a retry message carrying the original
parameters. -/
theorem C8_request_error_policy_witness :
    (runFetchSubreddits ["music"] (some "c1") Option.none
      (NetOutcome.httpErr 500)
      { songs := [{ id := "x", title := "t", url := "u" }],
        after := some "c1", loading := false, messages := [] }).1.songs =
      [{ id := "x", title := "t", url := "u" }] :=
  (C8_request_error_policy ["music"] (some "c1") (NetOutcome.httpErr 500)
    { songs := [{ id := "x", title := "t", url := "u" }],
      after := some "c1", loading := false, messages := [] }
    (by decide)).1

/-- C9: appending a batch deduplicates against the `id`s already present —
appending the same page twice yields the same queue as appending it once,
and for every `id` already in the queue the number of entries carrying that
`id` is unchanged by the append. -/
theorem C9_append_dedup_idempotent (q batch : List Song) :
    addSongs (addSongs q batch) batch = addSongs q batch ∧
    ∀ s ∈ batch, s.id ∈ q.map Song.id →
      ((addSongs q batch).filter (fun x => x.id == s.id)).length =
        (q.filter (fun x => x.id == s.id)).length := by
  constructor
  · have hnil :
        (batch.filter (fun s =>
          !(((addSongs q batch).map Song.id).contains s.id))) = [] := by
      rw [List.filter_eq_nil_iff]
      intro s hs
      have hin : s.id ∈ (addSongs q batch).map Song.id := by
        unfold addSongs
        rw [List.map_append, List.mem_append]
        by_cases hq : s.id ∈ q.map Song.id
        · exact Or.inl hq
        · refine Or.inr ?_
          have hmem : s ∈ batch.filter
              (fun t => !((q.map Song.id).contains t.id)) := by
            rw [List.mem_filter]
            exact ⟨hs, by simpa using hq⟩
          exact List.mem_map_of_mem Song.id hmem
      simpa using hin
    calc addSongs (addSongs q batch) batch
        = addSongs q batch ++ batch.filter (fun s =>
            !(((addSongs q batch).map Song.id).contains s.id)) := rfl
      _ = addSongs q batch := by rw [hnil, List.append_nil]
  · intro s _ hid
    have hfil : ((batch.filter (fun t =>
        !((q.map Song.id).contains t.id))).filter
          (fun x => x.id == s.id)) = [] := by
      rw [List.filter_eq_nil_iff]
      intro x hx
      have hx' := List.mem_filter.mp hx
      have hnotin : x.id ∉ q.map Song.id := by simpa using hx'.2
      intro hbeq
      exact hnotin (by rwa [show x.id = s.id from by simpa using hbeq])
    calc ((addSongs q batch).filter (fun x => x.id == s.id)).length
        = (q.filter (fun x => x.id == s.id) ++
            ((batch.filter (fun t => !((q.map Song.id).contains t.id))).filter
              (fun x => x.id == s.id))).length := by
          rw [addSongs, List.filter_append]
      _ = (q.filter (fun x => x.id == s.id)).length := by
          rw [hfil, List.append_nil]

/-- Witness for `C9_append_dedup_idempotent`: a batch repeating an `id`
already in the queue adds no second entry with that `id`. -/
theorem C9_append_dedup_idempotent_witness :
    (((addSongs [{ id := "a", title := "t", url := "u" }]
        [{ id := "a", title := "t2", url := "u2" }]).filter
          (fun x => x.id == "a")).length =
      (([{ id := "a", title := "t", url := "u" }] : List Song).filter
          (fun x => x.id == "a")).length) :=
  (C9_append_dedup_idempotent [{ id := "a", title := "t", url := "u" }]
    [{ id := "a", title := "t2", url := "u2" }]).2
    { id := "a", title := "t2", url := "u2" } (by decide) (by decide)

/-- C10: with no search query and no selected subreddits, `fetchMusic` still
dispatches a fetch — for the default list `["listentothis"]` — and app
start-up selects the same default when neither the URL path capture, the
`?r=` query parameter, nor saved state yields any subreddit. -/
theorem C10_default_subreddits (pathCapture rParam : Option String)
    (savedSubs : List String) (hp : optSubList pathCapture = [])
    (hq : optSubList rParam = []) (hs : savedSubs = []) :
    fetchMusicTarget "" [] = FetchTarget.subs ["listentothis"] ∧
    initSubreddits pathCapture rParam savedSubs = ["listentothis"] := by
  subst hs
  exact ⟨rfl, by simp [initSubreddits, hp, hq]⟩

/-- Witness for `C10_default_subreddits`: no path, no query parameter, no
saved subreddits. -/
theorem C10_default_subreddits_witness :
    initSubreddits Option.none Option.none [] = ["listentothis"] :=
  (C10_default_subreddits Option.none Option.none [] rfl rfl rfl).2

set_option maxHeartbeats 2000000 in
/-- Helper: every run of the retry loop performs delays `[]`, `[1000]` or
`[1000, 2000]`. -/
theorem retryLoop_delays_cases (u : ℕ → AttemptRes) :
    (retryLoop u).delays = [] ∨ (retryLoop u).delays = [1000] ∨
      (retryLoop u).delays = [1000, 2000] := by
  unfold retryLoop
  rcases h0 : u 0 with ⟨s0, b0⟩ | e0 <;>
  rcases h1 : u 1 with ⟨s1, b1⟩ | e1 <;>
  rcases h2 : u 2 with ⟨s2, b2⟩ | e2 <;>
  simp only [retryAux, h0, h1, h2, LoopOut.delays] <;>
  split_ifs <;> simp_all [LoopOut.delays]

/-- C4 counterexample: an upstream answering three consecutive 403s and then
200 exhausts the proxy's three attempts; the caller receives the 403 error
pass-through, not the 200 data the claim promises. -/
theorem C4_three_403s_not_recovered :
    proxyGet upstreamThree403sThen200 =
      { status := 403, errKind := some ErrKind.upstreamErr } ∧
    (proxyGet upstreamThree403sThen200).status ≠ 200 ∧
    (proxyGet upstreamThree403sThen200).errKind ≠ Option.none := by
  refine ⟨by decide, by decide, by decide⟩

/-- C4 as amended: the proxy retries 403s a bounded number of times with
increasing backoff — at most three attempts, hence at most two delays, which
are strictly increasing (1000 ms then 2000 ms) — and recovers when the 200
arrives within its attempt budget: after two consecutive 403s followed by a
200 the caller gets the 200 data, not an error. -/
theorem C4_retry_bounded_backoff (u : ℕ → AttemptRes) :
    proxyGet upstreamTwo403sThen200 =
      { status := 200, errKind := Option.none } ∧
    (retryLoop upstreamTwo403sThen200).delays = [1000, 2000] ∧
    (retryLoop u).delays.length ≤ 2 ∧
    List.Chain' (fun a b => a < b) (retryLoop u).delays := by
  refine ⟨by decide, by decide, ?_, ?_⟩
  · rcases retryLoop_delays_cases u with h | h | h <;> rw [h] <;> decide
  · rcases retryLoop_delays_cases u with h | h | h <;> rw [h]
    · exact List.chain'_nil
    · exact List.chain'_singleton 1000
    · exact List.chain'_cons.mpr ⟨by norm_num, List.chain'_singleton 2000⟩

/-- C5: the proxy's failure responses carry the status of their failure
class — 504 for the bounded timeout's abort, 503 for an unreachable
upstream, 500 for a malformed (non-JSON) or unexpected (non-object) payload,
and the upstream's own status passed through for any other upstream error —
and `proxyGet` always produces exactly the response classified this way (in
particular the timeout is mapped to a 504 response rather than hanging). -/
theorem C5_failure_status_mapping (d : List ℕ) (sOk sBad : ℕ)
    (b : RespBody) (le : Option FetchErr)
    (hOk : isOkStatus sOk = true) (hBad : isOkStatus sBad = false) :
    respondOf (LoopOut.thrown FetchErr.abortTimeout d) =
      { status := 504, errKind := some ErrKind.timeout } ∧
    respondOf (LoopOut.thrown FetchErr.netUnreachable d) =
      { status := 503, errKind := some ErrKind.network } ∧
    respondOf (LoopOut.finished (some (sOk, RespBody.notJson)) le d) =
      { status := 500, errKind := some ErrKind.badJson } ∧
    respondOf (LoopOut.finished (some (sOk, RespBody.jsonNonObj)) le d) =
      { status := 500, errKind := some ErrKind.invalidResp } ∧
    respondOf (LoopOut.finished (some (sBad, b)) le d) =
      { status := sBad, errKind := some ErrKind.upstreamErr } ∧
    (∀ v : ℕ → AttemptRes, proxyGet v = respondOf (retryLoop v)) := by
  refine ⟨rfl, rfl, ?_, ?_, ?_, fun _ => rfl⟩ <;>
    simp [respondOf, hOk, hBad]

/-- Witness for `C5_failure_status_mapping` at status 200 (ok) and 403
(pass-through). -/
theorem C5_failure_status_mapping_witness :
    respondOf (LoopOut.thrown FetchErr.abortTimeout []) =
      { status := 504, errKind := some ErrKind.timeout } :=
  (C5_failure_status_mapping [] 200 403 RespBody.jsonObj Option.none
    (by decide) (by decide)).1

end RMP
